import Mathlib

/-! Verification of `OLEDDisplay` (smart plant monitoring, ESP32).

Shallow embedding of `src/OLEDDisplay.h` / `src/OLEDDisplay.cpp`.

* The object state is the record `OLEDDisplay` (the private data members, minus the
  driver handle `display`, whose effect is recorded as a trace of driver calls `Op`).
* `millis()` is an input of `updateDisplay` (`currentTime`); `unsigned long` is 32 bit on
  the ESP32, so unsigned subtraction is taken modulo `2 ^ 32` (`subU32`).
* `float` values are modelled at the level of the order only (`Fl`): the code compares
  them with the constants 30 and 60 and hands them to the driver for printing, it never
  does arithmetic on them.
* `const float soilMoisture[]` is a pointer; it is modelled as the function from the
  index to the value stored there.
-/

/-! ## Floats, as far as the code looks at them -/

/-- Order-level model of a C `float`: a finite value (every finite float is a rational
number), the two infinities, or NaN. -/
inductive Fl where
  | finite (q : ℚ)
  | posInf
  | negInf
  | nan
deriving DecidableEq

/-- IEEE-754 comparison `a < b`: false as soon as one side is NaN. -/
def Fl.lt : Fl → Fl → Bool
  | .nan, _ => false
  | _, .nan => false
  | .finite a, .finite b => decide (a < b)
  | .finite _, .posInf => true
  | .finite _, .negInf => false
  | .posInf, _ => false
  | .negInf, .negInf => false
  | .negInf, _ => true

/-- Conversion of an `int` constant to `float` (exact for the constants used). -/
def Fl.ofInt (n : Int) : Fl := .finite n

/-! ## The driver calls (`Adafruit_SSD1306 display`) -/

/-- One call on the member `display`, as written in the source. -/
inductive Op where
  | clearDisplay
  | setTextColor (c : Nat)
  | setTextSize (s : Nat)
  | setCursor (x y : Int)
  | print (s : String)
  | printInt (n : Int)
  | printFloat (v : Fl) (digits : Nat)
  | println (s : String)
  | printlnEmpty
  | display
deriving DecidableEq

/-- Value of the driver constant `SSD1306_WHITE` (Adafruit_SSD1306.h). -/
def SSD1306_WHITE : Nat := 1

def OLED_SDA : Int := 21
def OLED_SCL : Int := 22

/-! ## Unsigned 32-bit time arithmetic -/

/-- Number of values of `unsigned long` on the ESP32. -/
def ULONG_RANGE : Nat := 2 ^ 32

/-- Unsigned subtraction `a - b` of two `unsigned long` values `a, b < 2 ^ 32`. -/
def subU32 (a b : Nat) : Nat := (a + ULONG_RANGE - b) % ULONG_RANGE

/-! ## The object -/

/-- Data members of `class OLEDDisplay` (without the driver handle). -/
structure OLEDDisplay where
  displayAvailable : Bool
  lastUpdate : Nat
  updateInterval : Nat
  displayState : Int
  stateChangeTime : Nat
deriving DecidableEq

namespace OLEDDisplay

/-- Constructor `OLEDDisplay::OLEDDisplay()`. -/
def new : OLEDDisplay :=
  { displayAvailable := false
    lastUpdate := 0
    updateInterval := 3000
    displayState := 0
    stateChangeTime := 0 }

/-- Member function `isAvailable()`. -/
def isAvailable (self : OLEDDisplay) : Bool := self.displayAvailable

/-- Outcome of `begin()`: the object afterwards, the returned flag, the driver calls
issued after bring-up, and the lines written to `Serial`. -/
structure BeginResult where
  self : OLEDDisplay
  ret : Bool
  ops : List Op
  serial : List String

/-- Member function `begin()`. `hwOk` is what `display.begin(SSD1306_SWITCHCAPVCC,
SCREEN_ADDRESS)` returns. -/
def begin (self : OLEDDisplay) (hwOk : Bool) : BeginResult :=
  let hello : List String :=
    ["Initializing OLED display...",
     "SDA Pin: " ++ toString OLED_SDA,
     "SCL Pin: " ++ toString OLED_SCL]
  if !hwOk then
    { self := { self with displayAvailable := false }
      ret := false
      ops := []
      serial := hello ++
        ["❌ SSD1306 allocation failed",
         "Please check:",
         "1. OLED wiring (SDA, SCL, VCC, GND)",
         "2. I2C address (usually 0x3C)",
         "3. I2C pins configuration"] }
  else
    { self := { self with displayAvailable := true }
      ret := true
      ops :=
        [Op.clearDisplay,
         Op.setTextColor SSD1306_WHITE,
         Op.setTextSize 1,
         Op.setCursor 0 0,
         Op.println "Plant Monitor",
         Op.println "Starting...",
         Op.display]
      serial := hello ++ ["✅ OLED display initialized successfully"] }

/-- Screen 0, `displayWiFiInfo(ssid, ip, isAPMode)`. -/
def displayWiFiInfo (ssid ip : String) (isAPMode : Bool) : List Op :=
  [Op.setCursor 0 0, Op.setTextSize 1] ++
  (if isAPMode then
    [Op.println "MODE: ACCESS POINT",
     Op.println ("SSID: " ++ ssid),
     Op.println ("IP: " ++ ip),
     Op.println "Connect to setup WiFi"]
  else
    [Op.println "MODE: STATION",
     Op.println "Connected to:",
     Op.println ssid,
     Op.println ("IP: " ++ ip)]) ++
  [Op.printlnEmpty, Op.println ("Web: http://" ++ ip)]

/-- The loop `for (int i = ...; i < numSensors && i < 3; i++) body(i)`, entered with
the current value of `i`. -/
def forSensors (numSensors : Int) (body : Nat → List Op) (i : Nat) : List Op :=
  if (i : Int) < numSensors ∧ i < 3 then
    body i ++ forSensors numSensors body (i + 1)
  else
    []
termination_by 3 - i
decreasing_by omega

/-- Body of the loop of `displaySensorData` for index `i`. -/
def sensorDataBody (soilMoisture : Nat → Fl) (i : Nat) : List Op :=
  [Op.print "P",
   Op.printInt ((i : Int) + 1),
   Op.print ": ",
   Op.printFloat (soilMoisture i) 0,
   Op.println " %"]

/-- Screen 1, `displaySensorData(temp, hum, soilMoisture, numSensors)`. -/
def displaySensorData (temp hum : Fl) (soilMoisture : Nat → Fl) (numSensors : Int) :
    List Op :=
  [Op.setCursor 0 0, Op.setTextSize 1,
   Op.println "ENVIRONMENT DATA",
   Op.println "---------------",
   Op.print "Temp: ", Op.printFloat temp 1, Op.println " C",
   Op.print "Hum:  ", Op.printFloat hum 1, Op.println " %",
   Op.println "---------------",
   Op.println "SOIL MOISTURE:"] ++
  forSensors numSensors (sensorDataBody soilMoisture) 0

/-- Body of the loop of `displayPlantStatus` for index `i`. -/
def plantStatusBody (soilMoisture : Nat → Fl) (i : Nat) : List Op :=
  [Op.print "Plant ",
   Op.printInt ((i : Int) + 1),
   Op.print ": "] ++
  (if (soilMoisture i).lt (Fl.ofInt 30) then
    [Op.println "DRY"]
  else if (soilMoisture i).lt (Fl.ofInt 60) then
    [Op.println "GOOD"]
  else
    [Op.println "WET"])

/-- Screen 2, `displayPlantStatus(soilMoisture, numSensors)`. -/
def displayPlantStatus (soilMoisture : Nat → Fl) (numSensors : Int) : List Op :=
  [Op.setCursor 0 0, Op.setTextSize 1,
   Op.println "PLANT STATUS",
   Op.println "---------------"] ++
  forSensors numSensors (plantStatusBody soilMoisture) 0 ++
  [Op.println "---------------",
   Op.println "STATUS GUIDE:",
   Op.println "DRY  < 30%",
   Op.println "GOOD 30-60%",
   Op.println "WET  > 60%"]

/-- Screen 3, `displayIPOnly(ip)`. -/
def displayIPOnly (ip : String) : List Op :=
  [Op.setCursor 0 0, Op.setTextSize 1,
   Op.println "PLANT MONITOR",
   Op.println "Ready",
   Op.printlnEmpty,
   Op.println "IP Address:",
   Op.setTextSize 2,
   Op.setCursor 0 30,
   Op.println ip]

/-- The `switch (displayState)` of `updateDisplay`; it has no `default` branch. -/
def renderState (displayState : Int) (ssid ip : String) (isAPMode : Bool)
    (temp hum : Fl) (soilMoisture : Nat → Fl) (numSensors : Int) : List Op :=
  if displayState = 0 then displayWiFiInfo ssid ip isAPMode
  else if displayState = 1 then displaySensorData temp hum soilMoisture numSensors
  else if displayState = 2 then displayPlantStatus soilMoisture numSensors
  else if displayState = 3 then displayIPOnly ip
  else []

/-- Member function `updateDisplay(...)`; `currentTime` is the value `millis()` returns
in this call. The result is the object afterwards and the driver calls issued.
`displayState + 1` is computed in `int` and `%` is the C++ remainder (truncating,
`Int.tmod`); `displayState` stays within 0..3 on every object reached from the
constructor (`runCalls_stateInRange`), so the addition never overflows. -/
def updateDisplay (self : OLEDDisplay) (currentTime : Nat) (ssid ip : String)
    (isAPMode : Bool) (temp hum : Fl) (soilMoisture : Nat → Fl) (numSensors : Int) :
    OLEDDisplay × List Op :=
  if !self.displayAvailable then (self, [])
  else if subU32 currentTime self.lastUpdate < 100 then (self, [])
  else
    let s1 : OLEDDisplay := { self with lastUpdate := currentTime }
    let s2 : OLEDDisplay :=
      if subU32 currentTime s1.stateChangeTime > s1.updateInterval then
        { s1 with
          displayState := Int.tmod (s1.displayState + 1) 4
          stateChangeTime := currentTime }
      else s1
    (s2,
      [Op.clearDisplay] ++
      renderState s2.displayState ssid ip isAPMode temp hum soilMoisture numSensors ++
      [Op.display])

/-- Member function `clearDisplay()`. -/
def clearDisplay (self : OLEDDisplay) : OLEDDisplay × List Op :=
  if !self.displayAvailable then (self, [])
  else (self, [Op.clearDisplay, Op.display])

end OLEDDisplay

/-! ## Call sequences -/

/-- One call of a public member function, with its arguments and, for `begin`, the
answer of the hardware, for `updateDisplay`, the clock reading. -/
inductive Call where
  | begin (hwOk : Bool)
  | updateDisplay (currentTime : Nat) (ssid ip : String) (isAPMode : Bool)
      (temp hum : Fl) (soilMoisture : Nat → Fl) (numSensors : Int)
  | clearDisplay

/-- Whether the call is a call of `begin()`. -/
def Call.isBegin : Call → Bool
  | .begin _ => true
  | _ => false

/-- Effect of one call: the object afterwards and the driver calls issued. -/
def stepCall (self : OLEDDisplay) : Call → OLEDDisplay × List Op
  | .begin hwOk => ((self.begin hwOk).self, (self.begin hwOk).ops)
  | .updateDisplay t ssid ip ap temp hum soil n =>
      self.updateDisplay t ssid ip ap temp hum soil n
  | .clearDisplay => self.clearDisplay

/-- Effect of a sequence of calls, in order: final object and all driver calls. -/
def runCalls (self : OLEDDisplay) : List Call → OLEDDisplay × List Op
  | [] => (self, [])
  | c :: cs =>
      let r := stepCall self c
      let rest := runCalls r.1 cs
      (rest.1, r.2 ++ rest.2)

/-! ## Text sent to the driver -/

/-- Text lines sent through `print`/`println`, in the order issued: `print` calls
extend the pending line, a `println` call completes it. `fmt v digits` stands for the
text `Print::print(double, int)` of the Arduino core produces for `v`; it is not part
of this repository and is left as a parameter. Integers print in decimal. -/
def printedLinesFrom (fmt : Fl → Nat → String) (cur : String) : List Op → List String
  | [] => []
  | .print s :: r => printedLinesFrom fmt (cur ++ s) r
  | .printInt n :: r => printedLinesFrom fmt (cur ++ toString n) r
  | .printFloat v d :: r => printedLinesFrom fmt (cur ++ fmt v d) r
  | .println s :: r => (cur ++ s) :: printedLinesFrom fmt "" r
  | .printlnEmpty :: r => cur :: printedLinesFrom fmt "" r
  | _ :: r => printedLinesFrom fmt cur r

/-- Text lines of a sequence of driver calls, starting with an empty pending line. -/
def printedLines (fmt : Fl → Nat → String) (ops : List Op) : List String :=
  printedLinesFrom fmt "" ops

/-- Number of entries the sensor loops emit: `min (max numSensors 0) 3`. -/
def shownSensors (numSensors : Int) : Nat := (min (max numSensors 0) 3).toNat

/-- Sample moisture array used in concrete checks: 45, 30, 60, 10, 99, then 0. -/
def sampleSoil : Nat → Fl
  | 0 => .finite 45
  | 1 => .finite 30
  | 2 => .finite 60
  | 3 => .finite 10
  | 4 => .finite 99
  | _ => .finite 0

/-- Sample float formatter used in concrete checks: prints the integer part of a
non-negative finite value and ignores the digits (enough for whole numbers). -/
def sampleFmt : Fl → Nat → String
  | .finite q, _ => toString (q.floor)
  | .posInf, _ => "inf"
  | .negInf, _ => "-inf"
  | .nan, _ => "nan"

/-- The category `displayPlantStatus` prints for a moisture value. -/
def moistureCategory (v : Fl) : String :=
  if v.lt (Fl.ofInt 30) then "DRY" else if v.lt (Fl.ofInt 60) then "GOOD" else "WET"

/-- The range invariant of `displayState`. -/
def StateInRange (s : OLEDDisplay) : Prop := 0 ≤ s.displayState ∧ s.displayState ≤ 3

/-- Whether a driver call is a clear or a flush. -/
def Op.isFrameOp : Op → Bool
  | .clearDisplay => true
  | .display => true
  | _ => false

/-- Text of the line `displaySensorData` prints for index `i`. -/
def sensorDataLine (fmt : Fl → Nat → String) (soil : Nat → Fl) (i : Nat) : String :=
  "P" ++ toString ((i : Int) + 1) ++ ": " ++ fmt (soil i) 0 ++ " %"

/-- Text of the line `displayPlantStatus` prints for index `i`. -/
def plantStatusLine (soil : Nat → Fl) (i : Nat) : String :=
  "Plant " ++ toString ((i : Int) + 1) ++ ": " ++ moistureCategory (soil i)

/-- What it means that `displayPlantStatus` prints category `c` for sensor `i`: the
loop body for `i` is the label followed by the single call `println(c)`, and the text
line number `2 + i` of the screen (after the two header lines) is
"Plant <i+1>: <c>". -/
def PrintsCategory (fmt : Fl → Nat → String) (soil : Nat → Fl) (numSensors : Int)
    (i : Nat) (c : String) : Prop :=
  OLEDDisplay.plantStatusBody soil i =
      [Op.print "Plant ", Op.printInt ((i : Int) + 1), Op.print ": ", Op.println c] ∧
  (printedLines fmt (OLEDDisplay.displayPlantStatus soil numSensors))[2 + i]? =
      some ("Plant " ++ toString ((i : Int) + 1) ++ ": " ++ c)

/-- Second sample array: equal to `sampleSoil` at the indices 0, 1, 2 and NaN
everywhere else. -/
def sampleSoilCut : Nat → Fl
  | 0 => .finite 45
  | 1 => .finite 30
  | 2 => .finite 60
  | _ => .nan

/-! ## Auxiliary facts -/

theorem forSensors_unroll (n : Int) (body : Nat → List Op) :
    OLEDDisplay.forSensors n body 0 =
      if 0 < n then
        body 0 ++ (if 1 < n then body 1 ++ (if 2 < n then body 2 else []) else [])
      else [] := by
  rw [OLEDDisplay.forSensors, OLEDDisplay.forSensors, OLEDDisplay.forSensors,
    OLEDDisplay.forSensors]
  simp

theorem forSensors_eq_flatMap (n : Int) (body : Nat → List Op) :
    OLEDDisplay.forSensors n body 0 = (List.range (shownSensors n)).flatMap body := by
  rw [forSensors_unroll]
  by_cases h0 : 0 < n
  · by_cases h1 : 1 < n
    · by_cases h2 : 2 < n
      · have hk : shownSensors n = 3 := by unfold shownSensors; omega
        simp [h0, h1, h2, hk, List.range_succ]
      · have hk : shownSensors n = 2 := by unfold shownSensors; omega
        simp [h0, h1, h2, hk, List.range_succ]
    · have hk : shownSensors n = 1 := by unfold shownSensors; omega
      simp [h0, h1, hk, List.range_succ]
  · have hk : shownSensors n = 0 := by unfold shownSensors; omega
    simp [h0, hk]

theorem plantStatusBody_eq (soil : Nat → Fl) (i : Nat) :
    OLEDDisplay.plantStatusBody soil i =
      [Op.print "Plant ", Op.printInt ((i : Int) + 1), Op.print ": ",
       Op.println (moistureCategory (soil i))] := by
  unfold OLEDDisplay.plantStatusBody moistureCategory
  split_ifs <;> rfl

theorem unavailable_stepCall (s : OLEDDisplay) (c : Call)
    (hs : s.displayAvailable = false) (hc : c.isBegin = false) :
    stepCall s c = (s, []) := by
  cases c with
  | begin hw => simp [Call.isBegin] at hc
  | updateDisplay t ssid ip ap temp hum soil n =>
      simp [stepCall, OLEDDisplay.updateDisplay, hs]
  | clearDisplay => simp [stepCall, OLEDDisplay.clearDisplay, hs]

theorem unavailable_runCalls (s : OLEDDisplay) (hs : s.displayAvailable = false)
    (calls : List Call) (hc : ∀ c ∈ calls, c.isBegin = false) :
    runCalls s calls = (s, []) := by
  induction calls with
  | nil => rfl
  | cons c cs ih =>
      have h1 : stepCall s c = (s, []) :=
        unavailable_stepCall s c hs (hc c (List.mem_cons_self c cs))
      have h2 : runCalls s cs = (s, []) :=
        ih (fun d hd => hc d (List.mem_cons_of_mem c hd))
      simp [runCalls, h1, h2]

theorem tmod_succ_of_range (d : Int) (h0 : 0 ≤ d) (h3 : d ≤ 3) :
    Int.tmod (d + 1) 4 = (d + 1) % 4 ∧ 0 ≤ (d + 1) % 4 ∧ (d + 1) % 4 ≤ 3 := by
  have h : d = 0 ∨ d = 1 ∨ d = 2 ∨ d = 3 := by omega
  rcases h with h | h | h | h <;> subst h <;> decide

theorem stepCall_displayState (s : OLEDDisplay) (c : Call) (hs : StateInRange s) :
    ((stepCall s c).1.displayState = s.displayState ∨
      (stepCall s c).1.displayState = (s.displayState + 1) % 4) ∧
    StateInRange (stepCall s c).1 := by
  obtain ⟨h0, h3⟩ := hs
  obtain ⟨e1, e2, e3⟩ := tmod_succ_of_range s.displayState h0 h3
  cases c with
  | begin hw =>
      cases hw <;> simp [stepCall, OLEDDisplay.begin, StateInRange, h0, h3]
  | updateDisplay t ssid ip ap temp hum soil n =>
      simp only [stepCall, OLEDDisplay.updateDisplay, StateInRange]
      split_ifs <;> simp [h0, h3, e1, e2, e3]
  | clearDisplay =>
      simp only [stepCall, OLEDDisplay.clearDisplay, StateInRange]
      split_ifs <;> simp [h0, h3]

theorem runCalls_stateInRange (s : OLEDDisplay) (hs : StateInRange s)
    (calls : List Call) : StateInRange (runCalls s calls).1 := by
  induction calls generalizing s with
  | nil => simpa [runCalls] using hs
  | cons c cs ih =>
      simpa [runCalls] using ih (stepCall s c).1 (stepCall_displayState s c hs).2

theorem new_stateInRange : StateInRange OLEDDisplay.new := by
  simp [StateInRange, OLEDDisplay.new]

theorem forSensors_no_frameOp (n : Int) (body : Nat → List Op)
    (hb : ∀ i, ∀ op ∈ body i, op.isFrameOp = false) :
    ∀ op ∈ OLEDDisplay.forSensors n body 0, op.isFrameOp = false := by
  intro op hop
  rw [forSensors_eq_flatMap] at hop
  obtain ⟨i, _, hi⟩ := List.mem_flatMap.mp hop
  exact hb i op hi

theorem renderState_no_frameOp (d : Int) (ssid ip : String) (ap : Bool)
    (temp hum : Fl) (soil : Nat → Fl) (n : Int) :
    ∀ op ∈ OLEDDisplay.renderState d ssid ip ap temp hum soil n, op.isFrameOp = false := by
  intro op hop
  unfold OLEDDisplay.renderState at hop
  split_ifs at hop
  · cases ap <;> simp [OLEDDisplay.displayWiFiInfo] at hop <;>
      rcases hop with h | h | h | h | h | h | h | h <;> subst h <;> rfl
  · simp only [OLEDDisplay.displaySensorData, List.mem_append] at hop
    rcases hop with hop | hop
    · simp at hop
      rcases hop with h | h | h | h | h | h | h | h | h | h | h | h <;> subst h <;> rfl
    · refine forSensors_no_frameOp n _ ?_ op hop
      intro i op hi
      simp [OLEDDisplay.sensorDataBody] at hi
      rcases hi with h | h | h | h | h <;> subst h <;> rfl
  · simp only [OLEDDisplay.displayPlantStatus, List.mem_append] at hop
    rcases hop with (hop | hop) | hop
    · simp at hop
      rcases hop with h | h | h | h <;> subst h <;> rfl
    · refine forSensors_no_frameOp n _ ?_ op hop
      intro i op hi
      rw [plantStatusBody_eq] at hi
      simp at hi
      rcases hi with h | h | h | h <;> subst h <;> rfl
    · simp at hop
      rcases hop with h | h | h | h | h <;> subst h <;> rfl
  · simp [OLEDDisplay.displayIPOnly] at hop
    rcases hop with h | h | h | h | h | h | h | h | h <;> subst h <;> rfl
  · simp at hop

theorem renderState_cases (d : Int) (h0 : 0 ≤ d) (h3 : d ≤ 3) (ssid ip : String)
    (ap : Bool) (temp hum : Fl) (soil : Nat → Fl) (n : Int) :
    (d = 0 ∧ OLEDDisplay.renderState d ssid ip ap temp hum soil n
        = OLEDDisplay.displayWiFiInfo ssid ip ap) ∨
    (d = 1 ∧ OLEDDisplay.renderState d ssid ip ap temp hum soil n
        = OLEDDisplay.displaySensorData temp hum soil n) ∨
    (d = 2 ∧ OLEDDisplay.renderState d ssid ip ap temp hum soil n
        = OLEDDisplay.displayPlantStatus soil n) ∨
    (d = 3 ∧ OLEDDisplay.renderState d ssid ip ap temp hum soil n
        = OLEDDisplay.displayIPOnly ip) := by
  have h : d = 0 ∨ d = 1 ∨ d = 2 ∨ d = 3 := by omega
  rcases h with h | h | h | h <;> subst h <;> simp [OLEDDisplay.renderState]

theorem updateDisplay_accepted_ops (s : OLEDDisplay) (t : Nat) (ssid ip : String)
    (ap : Bool) (temp hum : Fl) (soil : Nat → Fl) (n : Int)
    (hav : s.displayAvailable = true) (hacc : ¬ subU32 t s.lastUpdate < 100) :
    (s.updateDisplay t ssid ip ap temp hum soil n).2 =
      Op.clearDisplay ::
        (OLEDDisplay.renderState (s.updateDisplay t ssid ip ap temp hum soil n).1.displayState
            ssid ip ap temp hum soil n ++ [Op.display]) := by
  simp [OLEDDisplay.updateDisplay, hav, hacc]

theorem forSensors_congr (n : Int) (body body2 : Nat → List Op)
    (h : ∀ i : Nat, i < 3 → (i : Int) < n → body2 i = body i) :
    OLEDDisplay.forSensors n body2 0 = OLEDDisplay.forSensors n body 0 := by
  rw [forSensors_unroll, forSensors_unroll]
  split_ifs with h0 h1 h2
  · rw [h 0 (by omega) (by simpa using h0), h 1 (by omega) (by simpa using h1),
      h 2 (by omega) (by simpa using h2)]
  · rw [h 0 (by omega) (by simpa using h0), h 1 (by omega) (by simpa using h1)]
  · rw [h 0 (by omega) (by simpa using h0)]
  · rfl

theorem printedLinesFrom_flatMap (fmt : Fl → Nat → String) (body : Nat → List Op)
    (line : Nat → String)
    (hb : ∀ i rest, printedLinesFrom fmt "" (body i ++ rest)
      = line i :: printedLinesFrom fmt "" rest)
    (l : List Nat) (rest : List Op) :
    printedLinesFrom fmt "" (l.flatMap body ++ rest)
      = l.map line ++ printedLinesFrom fmt "" rest := by
  induction l with
  | nil => simp
  | cons a l ih => simp [List.flatMap_cons, List.append_assoc, hb, ih]

theorem displaySensorData_lines (fmt : Fl → Nat → String) (temp hum : Fl)
    (soil : Nat → Fl) (n : Int) :
    printedLines fmt (OLEDDisplay.displaySensorData temp hum soil n) =
      ["ENVIRONMENT DATA", "---------------", "Temp: " ++ fmt temp 1 ++ " C",
       "Hum:  " ++ fmt hum 1 ++ " %", "---------------", "SOIL MOISTURE:"] ++
      (List.range (shownSensors n)).map (sensorDataLine fmt soil) := by
  have hb : ∀ i rest, printedLinesFrom fmt "" (OLEDDisplay.sensorDataBody soil i ++ rest)
      = sensorDataLine fmt soil i :: printedLinesFrom fmt "" rest := by
    intro i rest
    simp [OLEDDisplay.sensorDataBody, printedLinesFrom, sensorDataLine]
  have h := printedLinesFrom_flatMap fmt _ _ hb (List.range (shownSensors n)) []
  simp only [List.append_nil] at h
  simp [printedLines, OLEDDisplay.displaySensorData, forSensors_eq_flatMap,
    printedLinesFrom, h]

theorem displayPlantStatus_lines (fmt : Fl → Nat → String) (soil : Nat → Fl) (n : Int) :
    printedLines fmt (OLEDDisplay.displayPlantStatus soil n) =
      ["PLANT STATUS", "---------------"] ++
      (List.range (shownSensors n)).map (plantStatusLine soil) ++
      ["---------------", "STATUS GUIDE:", "DRY  < 30%", "GOOD 30-60%", "WET  > 60%"] := by
  have hb : ∀ i rest, printedLinesFrom fmt "" (OLEDDisplay.plantStatusBody soil i ++ rest)
      = plantStatusLine soil i :: printedLinesFrom fmt "" rest := by
    intro i rest
    rw [plantStatusBody_eq]
    simp [printedLinesFrom, plantStatusLine]
  have h := printedLinesFrom_flatMap fmt _ _ hb (List.range (shownSensors n))
    [Op.println "---------------", Op.println "STATUS GUIDE:", Op.println "DRY  < 30%",
     Op.println "GOOD 30-60%", Op.println "WET  > 60%"]
  simp [printedLines, OLEDDisplay.displayPlantStatus, forSensors_eq_flatMap,
    printedLinesFrom, h]

theorem moistureCategory_finite (q : ℚ) :
    moistureCategory (.finite q) =
      if q < 30 then "DRY" else if q < 60 then "GOOD" else "WET" := by
  simp [moistureCategory, Fl.lt, Fl.ofInt]

theorem printsCategory_shown (fmt : Fl → Nat → String) (soil : Nat → Fl) (n : Int)
    (i : Nat) (hi : i < shownSensors n) :
    PrintsCategory fmt soil n i (moistureCategory (soil i)) := by
  refine ⟨plantStatusBody_eq soil i, ?_⟩
  rw [displayPlantStatus_lines,
    List.getElem?_append_left (by simp only [List.length_append, List.length_map,
      List.length_range, List.length_cons, List.length_nil]; omega),
    List.getElem?_append_right (by simp)]
  simp [hi, plantStatusLine]

theorem stepCall_updateInterval (s : OLEDDisplay) (c : Call) :
    (stepCall s c).1.updateInterval = s.updateInterval := by
  cases c with
  | begin hw => cases hw <;> simp [stepCall, OLEDDisplay.begin]
  | updateDisplay t ssid ip ap temp hum soil n =>
      simp only [stepCall, OLEDDisplay.updateDisplay]
      split_ifs <;> rfl
  | clearDisplay =>
      simp only [stepCall, OLEDDisplay.clearDisplay]
      split_ifs <;> rfl

theorem runCalls_updateInterval (s : OLEDDisplay) (calls : List Call) :
    (runCalls s calls).1.updateInterval = s.updateInterval := by
  induction calls generalizing s with
  | nil => rfl
  | cons c cs ih =>
      simp only [runCalls]
      rw [ih (stepCall s c).1, stepCall_updateInterval]

theorem reachable_updateInterval (calls : List Call) :
    (runCalls OLEDDisplay.new calls).1.updateInterval = 3000 := by
  rw [runCalls_updateInterval]
  rfl

/-! ## The claims -/

/-- C1: on an available display, a call of `updateDisplay` at a clock reading less than
100 ms (unsigned difference) after `lastUpdate` issues no driver call at all and
returns the object unchanged, so `displayState`, `lastUpdate` and `stateChangeTime`
keep their values. -/
theorem updateDisplay_rate_limited (s : OLEDDisplay) (currentTime : Nat)
    (ssid ip : String) (isAPMode : Bool) (temp hum : Fl) (soil : Nat → Fl)
    (numSensors : Int)
    (hav : s.displayAvailable = true)
    (hel : subU32 currentTime s.lastUpdate < 100) :
    (s.updateDisplay currentTime ssid ip isAPMode temp hum soil numSensors).2 = [] ∧
    (s.updateDisplay currentTime ssid ip isAPMode temp hum soil numSensors).1 = s := by
  simp [OLEDDisplay.updateDisplay, hav, hel]

/-- Witness for C1: 99 ms after an accepted redraw at 5000 ms, in state 2. -/
theorem updateDisplay_rate_limited_witness :
    (({ displayAvailable := true, lastUpdate := 5000, updateInterval := 3000,
        displayState := 2, stateChangeTime := 4000 } : OLEDDisplay).updateDisplay
        5099 "PlantNet" "192.168.4.1" true (.finite 23) (.finite 55) sampleSoil 3).2 = [] ∧
    (({ displayAvailable := true, lastUpdate := 5000, updateInterval := 3000,
        displayState := 2, stateChangeTime := 4000 } : OLEDDisplay).updateDisplay
        5099 "PlantNet" "192.168.4.1" true (.finite 23) (.finite 55) sampleSoil 3).1 =
      { displayAvailable := true, lastUpdate := 5000, updateInterval := 3000,
        displayState := 2, stateChangeTime := 4000 } :=
  updateDisplay_rate_limited _ 5099 "PlantNet" "192.168.4.1" true (.finite 23)
    (.finite 55) sampleSoil 3 (by decide) (by decide)

/-- C2, counterexample: available object in state 0 with `lastUpdate = 0` and
`stateChangeTime = 0` (the object right after a successful `begin()`), call at
`currentTime = 3000`. The call is accepted and the time since the last state change is
exactly 3000 ms, yet `displayState` stays 0 and `stateChangeTime` stays 0. -/
theorem updateDisplay_at_3000_no_advance :
    ((OLEDDisplay.new.begin true).self.displayAvailable = true ∧
     (OLEDDisplay.new.begin true).self.displayState = 0 ∧
     ¬ subU32 3000 (OLEDDisplay.new.begin true).self.lastUpdate < 100 ∧
     subU32 3000 (OLEDDisplay.new.begin true).self.stateChangeTime = 3000) ∧
    ((OLEDDisplay.new.begin true).self.updateDisplay 3000 "PlantNet" "192.168.4.1" true
        (.finite 23) (.finite 55) sampleSoil 3).1.displayState = 0 ∧
    ((OLEDDisplay.new.begin true).self.updateDisplay 3000 "PlantNet" "192.168.4.1" true
        (.finite 23) (.finite 55) sampleSoil 3).1.displayState ≠ (0 + 1) % 4 ∧
    ((OLEDDisplay.new.begin true).self.updateDisplay 3000 "PlantNet" "192.168.4.1" true
        (.finite 23) (.finite 55) sampleSoil 3).1.stateChangeTime ≠ 3000 := by
  decide

/-- C2, amended: on every available object reached from the constructed one by any
sequence of calls, `displayState = s` is in 0..3, and an accepted (not rate-limited)
call of `updateDisplay` whose unsigned time since `stateChangeTime` is strictly
greater than 3000 ms sets `displayState` to `(s + 1) mod 4` and `stateChangeTime` to
`currentTime`; when that time is at most 3000 ms (3000 included) both keep their
values. -/
theorem updateDisplay_advance (calls : List Call) (currentTime : Nat)
    (ssid ip : String) (isAPMode : Bool) (temp hum : Fl) (soil : Nat → Fl)
    (numSensors : Int)
    (hav : (runCalls OLEDDisplay.new calls).1.displayAvailable = true)
    (hacc : ¬ subU32 currentTime (runCalls OLEDDisplay.new calls).1.lastUpdate < 100) :
    (0 ≤ (runCalls OLEDDisplay.new calls).1.displayState ∧
      (runCalls OLEDDisplay.new calls).1.displayState ≤ 3) ∧
    ((runCalls OLEDDisplay.new calls).1.updateDisplay currentTime ssid ip isAPMode
        temp hum soil numSensors).1.displayState
      = (if subU32 currentTime (runCalls OLEDDisplay.new calls).1.stateChangeTime > 3000
          then ((runCalls OLEDDisplay.new calls).1.displayState + 1) % 4
          else (runCalls OLEDDisplay.new calls).1.displayState) ∧
    ((runCalls OLEDDisplay.new calls).1.updateDisplay currentTime ssid ip isAPMode
        temp hum soil numSensors).1.stateChangeTime
      = (if subU32 currentTime (runCalls OLEDDisplay.new calls).1.stateChangeTime > 3000
          then currentTime
          else (runCalls OLEDDisplay.new calls).1.stateChangeTime) := by
  have hinv := runCalls_stateInRange OLEDDisplay.new new_stateInRange calls
  have hint := reachable_updateInterval calls
  obtain ⟨e1, _, _⟩ := tmod_succ_of_range _ hinv.1 hinv.2
  refine ⟨hinv, ?_⟩
  simp only [OLEDDisplay.updateDisplay, hav, hint]
  split_ifs <;> simp_all

/-- Witness for C2 (amended): after a successful `begin()` and accepted calls at 3001,
6002 and 9003 ms the object is in state 3; the call at 12004 ms, 3001 ms after the
last change, wraps it to state 0 and stores 12004. -/
theorem updateDisplay_advance_witness :
    ((runCalls OLEDDisplay.new
        [Call.begin true,
         Call.updateDisplay 3001 "PlantNet" "192.168.4.1" true (.finite 23) (.finite 55)
           sampleSoil 3,
         Call.updateDisplay 6002 "PlantNet" "192.168.4.1" true (.finite 23) (.finite 55)
           sampleSoil 3,
         Call.updateDisplay 9003 "PlantNet" "192.168.4.1" true (.finite 23) (.finite 55)
           sampleSoil 3]).1
      = { displayAvailable := true, lastUpdate := 9003, updateInterval := 3000,
          displayState := 3, stateChangeTime := 9003 }) ∧
    (((runCalls OLEDDisplay.new
        [Call.begin true,
         Call.updateDisplay 3001 "PlantNet" "192.168.4.1" true (.finite 23) (.finite 55)
           sampleSoil 3,
         Call.updateDisplay 6002 "PlantNet" "192.168.4.1" true (.finite 23) (.finite 55)
           sampleSoil 3,
         Call.updateDisplay 9003 "PlantNet" "192.168.4.1" true (.finite 23) (.finite 55)
           sampleSoil 3]).1.updateDisplay 12004 "PlantNet" "192.168.4.1" true
        (.finite 23) (.finite 55) sampleSoil 3).1.displayState = 0) ∧
    (((runCalls OLEDDisplay.new
        [Call.begin true,
         Call.updateDisplay 3001 "PlantNet" "192.168.4.1" true (.finite 23) (.finite 55)
           sampleSoil 3,
         Call.updateDisplay 6002 "PlantNet" "192.168.4.1" true (.finite 23) (.finite 55)
           sampleSoil 3,
         Call.updateDisplay 9003 "PlantNet" "192.168.4.1" true (.finite 23) (.finite 55)
           sampleSoil 3]).1.updateDisplay 12004 "PlantNet" "192.168.4.1" true
        (.finite 23) (.finite 55) sampleSoil 3).1.stateChangeTime = 12004) :=
  ⟨by decide,
   (updateDisplay_advance
      [Call.begin true,
       Call.updateDisplay 3001 "PlantNet" "192.168.4.1" true (.finite 23) (.finite 55)
         sampleSoil 3,
       Call.updateDisplay 6002 "PlantNet" "192.168.4.1" true (.finite 23) (.finite 55)
         sampleSoil 3,
       Call.updateDisplay 9003 "PlantNet" "192.168.4.1" true (.finite 23) (.finite 55)
         sampleSoil 3]
      12004 "PlantNet" "192.168.4.1" true (.finite 23) (.finite 55) sampleSoil 3
      (by decide) (by decide)).2.1.trans (by decide),
   (updateDisplay_advance
      [Call.begin true,
       Call.updateDisplay 3001 "PlantNet" "192.168.4.1" true (.finite 23) (.finite 55)
         sampleSoil 3,
       Call.updateDisplay 6002 "PlantNet" "192.168.4.1" true (.finite 23) (.finite 55)
         sampleSoil 3,
       Call.updateDisplay 9003 "PlantNet" "192.168.4.1" true (.finite 23) (.finite 55)
         sampleSoil 3]
      12004 "PlantNet" "192.168.4.1" true (.finite 23) (.finite 55) sampleSoil 3
      (by decide) (by decide)).2.2.trans (by decide)⟩

/-- C4: if the display is unavailable because `begin()` was never called (the object
is as constructed) or because a call of `begin()` returned false, then every finite
sequence of `updateDisplay` and `clearDisplay` calls, with any arguments and clock
readings, issues no driver call at all and leaves the object as it was (so
`displayState`, `lastUpdate` and `stateChangeTime` keep their values), and
`isAvailable()` is false before and after the sequence. -/
theorem unavailable_inert (s : OLEDDisplay) (calls : List Call)
    (hs : s = OLEDDisplay.new ∨
      ∃ (s0 : OLEDDisplay) (hwOk : Bool),
        (s0.begin hwOk).ret = false ∧ s = (s0.begin hwOk).self)
    (hc : ∀ c ∈ calls, c.isBegin = false) :
    (runCalls s calls).2 = [] ∧
    (runCalls s calls).1 = s ∧
    (runCalls s calls).1.isAvailable = false ∧
    s.isAvailable = false := by
  have hav : s.displayAvailable = false := by
    rcases hs with h | ⟨s0, hw, hret, h⟩
    · subst h; rfl
    · subst h
      cases hw
      · simp [OLEDDisplay.begin]
      · simp [OLEDDisplay.begin] at hret
  rw [unavailable_runCalls s hav calls hc]
  exact ⟨rfl, rfl, hav, hav⟩

/-- Witness for C4: after a failed `begin()`, three redraw requests spread over four
seconds and a `clearDisplay()` do nothing. -/
theorem unavailable_inert_witness :
    (runCalls (OLEDDisplay.new.begin false).self
      [Call.updateDisplay 200 "PlantNet" "192.168.4.1" true (.finite 23) (.finite 55)
         sampleSoil 3,
       Call.updateDisplay 3500 "PlantNet" "192.168.4.1" true (.finite 23) (.finite 55)
         sampleSoil 3,
       Call.clearDisplay,
       Call.updateDisplay 4200 "PlantNet" "192.168.4.1" false (.finite 23) (.finite 55)
         sampleSoil 5]).2 = [] ∧
    (runCalls (OLEDDisplay.new.begin false).self
      [Call.updateDisplay 200 "PlantNet" "192.168.4.1" true (.finite 23) (.finite 55)
         sampleSoil 3,
       Call.updateDisplay 3500 "PlantNet" "192.168.4.1" true (.finite 23) (.finite 55)
         sampleSoil 3,
       Call.clearDisplay,
       Call.updateDisplay 4200 "PlantNet" "192.168.4.1" false (.finite 23) (.finite 55)
         sampleSoil 5]).1 = (OLEDDisplay.new.begin false).self ∧
    (runCalls (OLEDDisplay.new.begin false).self
      [Call.updateDisplay 200 "PlantNet" "192.168.4.1" true (.finite 23) (.finite 55)
         sampleSoil 3,
       Call.updateDisplay 3500 "PlantNet" "192.168.4.1" true (.finite 23) (.finite 55)
         sampleSoil 3,
       Call.clearDisplay,
       Call.updateDisplay 4200 "PlantNet" "192.168.4.1" false (.finite 23) (.finite 55)
         sampleSoil 5]).1.isAvailable = false ∧
    (OLEDDisplay.new.begin false).self.isAvailable = false :=
  unavailable_inert (OLEDDisplay.new.begin false).self _
    (Or.inr ⟨OLEDDisplay.new, false, by decide, rfl⟩)
    (by decide)

/-- C8: starting from the constructed object, after any sequence of `begin`,
`updateDisplay` and `clearDisplay` calls (any arguments, hardware answers and clock
readings) `displayState` is one of 0, 1, 2, 3, and any further single call either
leaves `displayState` as it is or moves it from `s` to `(s + 1) mod 4`. -/
theorem displayState_forward_cyclic (calls : List Call) (c : Call) :
    (0 ≤ (runCalls OLEDDisplay.new calls).1.displayState ∧
      (runCalls OLEDDisplay.new calls).1.displayState ≤ 3) ∧
    ((stepCall (runCalls OLEDDisplay.new calls).1 c).1.displayState
        = (runCalls OLEDDisplay.new calls).1.displayState ∨
     (stepCall (runCalls OLEDDisplay.new calls).1 c).1.displayState
        = ((runCalls OLEDDisplay.new calls).1.displayState + 1) % 4) := by
  have hinv := runCalls_stateInRange OLEDDisplay.new new_stateInRange calls
  exact ⟨hinv, (stepCall_displayState _ c hinv).1⟩

/-- C9: with 32-bit unsigned timestamps, for a stored timestamp `t0` and a true elapsed
duration `d < 2 ^ 32`, at `currentTime = (t0 + d) mod 2 ^ 32` the unsigned difference
`currentTime - t0` is exactly `d`, whether or not the clock wrapped in between; hence
the rate-limit test `currentTime - t0 < 100` holds iff `d < 100` and the dwell test
`currentTime - t0 > 3000` holds iff `d > 3000`. In `updateDisplay`: an available
object with `lastUpdate = t0` drops the call iff `d < 100`, and an accepted call on an
object with `stateChangeTime = t0`, `updateInterval = 3000` and `displayState` in 0..3
advances the state iff `d > 3000`. -/
theorem elapsed_correct_across_wrap (t0 d : Nat)
    (ht0 : t0 < ULONG_RANGE) (hd : d < ULONG_RANGE) :
    subU32 ((t0 + d) % ULONG_RANGE) t0 = d ∧
    (subU32 ((t0 + d) % ULONG_RANGE) t0 < 100 ↔ d < 100) ∧
    (subU32 ((t0 + d) % ULONG_RANGE) t0 > 3000 ↔ d > 3000) ∧
    (∀ (s : OLEDDisplay) (ssid ip : String) (isAPMode : Bool) (temp hum : Fl)
        (soil : Nat → Fl) (numSensors : Int),
      s.displayAvailable = true → s.lastUpdate = t0 →
      ((s.updateDisplay ((t0 + d) % ULONG_RANGE) ssid ip isAPMode temp hum soil
          numSensors).2 = [] ↔ d < 100)) ∧
    (∀ (s : OLEDDisplay) (ssid ip : String) (isAPMode : Bool) (temp hum : Fl)
        (soil : Nat → Fl) (numSensors : Int),
      s.displayAvailable = true → s.updateInterval = 3000 →
      0 ≤ s.displayState → s.displayState ≤ 3 → s.stateChangeTime = t0 →
      ¬ subU32 ((t0 + d) % ULONG_RANGE) s.lastUpdate < 100 →
      ((s.updateDisplay ((t0 + d) % ULONG_RANGE) ssid ip isAPMode temp hum soil
          numSensors).1.displayState = (s.displayState + 1) % 4 ↔ d > 3000)) := by
  have key : subU32 ((t0 + d) % ULONG_RANGE) t0 = d := by
    unfold subU32 ULONG_RANGE at *
    omega
  refine ⟨key, by rw [key], by rw [key], ?_, ?_⟩
  · intro s ssid ip ap temp hum soil n hav hL
    subst hL
    by_cases h : d < 100
    · simp [OLEDDisplay.updateDisplay, hav, key, h]
    · simp [OLEDDisplay.updateDisplay, hav, key, h]
  · intro s ssid ip ap temp hum soil n hav hint h0 h3 hS hacc
    subst hS
    obtain ⟨e1, _, _⟩ := tmod_succ_of_range s.displayState h0 h3
    by_cases h : d > 3000
    · simp [OLEDDisplay.updateDisplay, hav, hint, hacc, key, h, e1]
    · have hne : s.displayState ≠ (s.displayState + 1) % 4 := by omega
      simp [OLEDDisplay.updateDisplay, hav, hint, hacc, key, h, hne]

/-- Witness for C9: timestamp 50 ms before the wrap; 80 ms later the clock reads 30,
numerically below the stored timestamp, and the unsigned difference is 80. -/
theorem elapsed_correct_across_wrap_witness :
    ((4294967246 + 80) % ULONG_RANGE = 30 ∧ 30 < 4294967246) ∧
    subU32 ((4294967246 + 80) % ULONG_RANGE) 4294967246 = 80 ∧
    (subU32 ((4294967246 + 80) % ULONG_RANGE) 4294967246 < 100 ↔ 80 < 100) ∧
    (subU32 ((4294967246 + 80) % ULONG_RANGE) 4294967246 > 3000 ↔ 80 > 3000) :=
  ⟨by decide,
   (elapsed_correct_across_wrap 4294967246 80 (by decide) (by decide)).1,
   (elapsed_correct_across_wrap 4294967246 80 (by decide) (by decide)).2.1,
   (elapsed_correct_across_wrap 4294967246 80 (by decide) (by decide)).2.2.1⟩

/-- C10: on an object reached from the constructed one by any sequence of calls, every
accepted (available, not rate-limited) call of `updateDisplay` issues: one
`clearDisplay` first, then the driver calls of exactly the screen routine selected by
the value of `displayState` after the call (0: `displayWiFiInfo`, 1:
`displaySensorData`, 2: `displayPlantStatus`, 3: `displayIPOnly`), then one
`display()` last; the part in between contains neither a clear nor a flush. -/
theorem accepted_update_is_one_frame (calls : List Call) (currentTime : Nat)
    (ssid ip : String) (isAPMode : Bool) (temp hum : Fl) (soil : Nat → Fl)
    (numSensors : Int)
    (hav : (runCalls OLEDDisplay.new calls).1.displayAvailable = true)
    (hacc : ¬ subU32 currentTime (runCalls OLEDDisplay.new calls).1.lastUpdate < 100) :
    ∃ screen : List Op,
      ((runCalls OLEDDisplay.new calls).1.updateDisplay currentTime ssid ip isAPMode
          temp hum soil numSensors).2 = Op.clearDisplay :: (screen ++ [Op.display]) ∧
      Op.clearDisplay ∉ screen ∧ Op.display ∉ screen ∧
      ((((runCalls OLEDDisplay.new calls).1.updateDisplay currentTime ssid ip isAPMode
            temp hum soil numSensors).1.displayState = 0 ∧
          screen = OLEDDisplay.displayWiFiInfo ssid ip isAPMode) ∨
       (((runCalls OLEDDisplay.new calls).1.updateDisplay currentTime ssid ip isAPMode
            temp hum soil numSensors).1.displayState = 1 ∧
          screen = OLEDDisplay.displaySensorData temp hum soil numSensors) ∨
       (((runCalls OLEDDisplay.new calls).1.updateDisplay currentTime ssid ip isAPMode
            temp hum soil numSensors).1.displayState = 2 ∧
          screen = OLEDDisplay.displayPlantStatus soil numSensors) ∨
       (((runCalls OLEDDisplay.new calls).1.updateDisplay currentTime ssid ip isAPMode
            temp hum soil numSensors).1.displayState = 3 ∧
          screen = OLEDDisplay.displayIPOnly ip)) := by
  have hinv := runCalls_stateInRange OLEDDisplay.new new_stateInRange calls
  have hstep := (stepCall_displayState (runCalls OLEDDisplay.new calls).1
    (Call.updateDisplay currentTime ssid ip isAPMode temp hum soil numSensors) hinv).2
  simp only [stepCall] at hstep
  refine ⟨_, updateDisplay_accepted_ops _ currentTime ssid ip isAPMode temp hum soil
    numSensors hav hacc, ?_, ?_, ?_⟩
  · intro hmem
    have := renderState_no_frameOp _ ssid ip isAPMode temp hum soil numSensors _ hmem
    simp [Op.isFrameOp] at this
  · intro hmem
    have := renderState_no_frameOp _ ssid ip isAPMode temp hum soil numSensors _ hmem
    simp [Op.isFrameOp] at this
  · exact renderState_cases _ hstep.1 hstep.2 ssid ip isAPMode temp hum soil numSensors

/-- Witness for C10: after a successful `begin()`, the call at 3500 ms is accepted,
advances to state 1 and draws the sensor screen between one clear and one flush. -/
theorem accepted_update_is_one_frame_witness :
    (runCalls OLEDDisplay.new [Call.begin true]).1.displayAvailable = true ∧
    ¬ subU32 3500 (runCalls OLEDDisplay.new [Call.begin true]).1.lastUpdate < 100 ∧
    ∃ screen : List Op,
      ((runCalls OLEDDisplay.new [Call.begin true]).1.updateDisplay 3500 "PlantNet"
          "192.168.4.1" true (.finite 23) (.finite 55) sampleSoil 5).2
        = Op.clearDisplay :: (screen ++ [Op.display]) ∧
      Op.clearDisplay ∉ screen ∧ Op.display ∉ screen ∧
      ((((runCalls OLEDDisplay.new [Call.begin true]).1.updateDisplay 3500 "PlantNet"
            "192.168.4.1" true (.finite 23) (.finite 55) sampleSoil 5).1.displayState = 0 ∧
          screen = OLEDDisplay.displayWiFiInfo "PlantNet" "192.168.4.1" true) ∨
       (((runCalls OLEDDisplay.new [Call.begin true]).1.updateDisplay 3500 "PlantNet"
            "192.168.4.1" true (.finite 23) (.finite 55) sampleSoil 5).1.displayState = 1 ∧
          screen = OLEDDisplay.displaySensorData (.finite 23) (.finite 55) sampleSoil 5) ∨
       (((runCalls OLEDDisplay.new [Call.begin true]).1.updateDisplay 3500 "PlantNet"
            "192.168.4.1" true (.finite 23) (.finite 55) sampleSoil 5).1.displayState = 2 ∧
          screen = OLEDDisplay.displayPlantStatus sampleSoil 5) ∨
       (((runCalls OLEDDisplay.new [Call.begin true]).1.updateDisplay 3500 "PlantNet"
            "192.168.4.1" true (.finite 23) (.finite 55) sampleSoil 5).1.displayState = 3 ∧
          screen = OLEDDisplay.displayIPOnly "192.168.4.1")) :=
  ⟨by decide, by decide,
    accepted_update_is_one_frame [Call.begin true] 3500 "PlantNet" "192.168.4.1" true
      (.finite 23) (.finite 55) sampleSoil 5 (by decide) (by decide)⟩

/-- C6: for every `ssid` and `ip`, the text lines of `displayWiFiInfo` are, in access
point mode, "MODE: ACCESS POINT", "SSID: " + ssid, "IP: " + ip, "Connect to setup
WiFi", and in station mode "MODE: STATION", "Connected to:", ssid, "IP: " + ip; in
both modes an empty line and "Web: http://" + ip follow and end the output. For
ssid "PlantNet", ip "192.168.4.1" in access point mode this gives the lines of the
scenario. -/
theorem displayWiFiInfo_lines (fmt : Fl → Nat → String) (ssid ip : String) :
    printedLines fmt (OLEDDisplay.displayWiFiInfo ssid ip true) =
      ["MODE: ACCESS POINT", "SSID: " ++ ssid, "IP: " ++ ip, "Connect to setup WiFi",
       "", "Web: http://" ++ ip] ∧
    printedLines fmt (OLEDDisplay.displayWiFiInfo ssid ip false) =
      ["MODE: STATION", "Connected to:", ssid, "IP: " ++ ip,
       "", "Web: http://" ++ ip] ∧
    printedLines fmt (OLEDDisplay.displayWiFiInfo "PlantNet" "192.168.4.1" true) =
      ["MODE: ACCESS POINT", "SSID: PlantNet", "IP: 192.168.4.1",
       "Connect to setup WiFi", "", "Web: http://192.168.4.1"] := by
  refine ⟨?_, ?_, ?_⟩
  · simp [printedLines, printedLinesFrom, OLEDDisplay.displayWiFiInfo]
  · simp [printedLines, printedLinesFrom, OLEDDisplay.displayWiFiInfo]
  · simp [printedLines, printedLinesFrom, OLEDDisplay.displayWiFiInfo]

/-- C3: for every displayed sensor `i` (below `min (max numSensors 0) 3`) whose
moisture value is a finite `q` (in particular every `q` with `0 ≤ q ≤ 100`),
`displayPlantStatus` prints for it exactly one category: "DRY" if `q < 30`, "GOOD" if
`30 ≤ q < 60`, "WET" if `q ≥ 60` (so 30 gives "GOOD" and 60 gives "WET"); the screen
has one such line per displayed sensor, between 2 header lines and 5 legend lines. -/
theorem plantStatus_category (fmt : Fl → Nat → String) (soil : Nat → Fl)
    (numSensors : Int) (i : Nat) (q : ℚ)
    (hi : i < shownSensors numSensors)
    (hq : soil i = .finite q) :
    (q < 30 → PrintsCategory fmt soil numSensors i "DRY") ∧
    (30 ≤ q → q < 60 → PrintsCategory fmt soil numSensors i "GOOD") ∧
    (60 ≤ q → PrintsCategory fmt soil numSensors i "WET") ∧
    (printedLines fmt (OLEDDisplay.displayPlantStatus soil numSensors)).length
      = 2 + shownSensors numSensors + 5 := by
  have h := printsCategory_shown fmt soil numSensors i hi
  rw [hq, moistureCategory_finite] at h
  refine ⟨?_, ?_, ?_, ?_⟩
  · intro h30
    simpa [h30] using h
  · intro h30 h60
    simpa [not_lt.mpr h30, h60] using h
  · intro h60
    have h30 : ¬ q < 30 := by linarith
    simpa [h30, not_lt.mpr h60] using h
  · rw [displayPlantStatus_lines]
    simp only [List.length_append, List.length_map, List.length_range, List.length_cons,
      List.length_nil]

/-- Witness for C3: with five readings 45, 30, 60, 10, 99 the boundary values at
indices 1 and 2 print "GOOD" and "WET". -/
theorem plantStatus_category_witness :
    PrintsCategory sampleFmt sampleSoil 5 1 "GOOD" ∧
    PrintsCategory sampleFmt sampleSoil 5 2 "WET" :=
  ⟨(plantStatus_category sampleFmt sampleSoil 5 1 30 (by decide) rfl).2.1 (by norm_num) (by norm_num),
   (plantStatus_category sampleFmt sampleSoil 5 2 60 (by decide) rfl).2.2.1 (by norm_num)⟩

/-- C5: for every moisture array and every `numSensors`, with
`k = min (max numSensors 0) 3`, the driver calls of `displaySensorData` are its 12
header calls followed by the entries for the indices `0, ..., k - 1` in increasing
order, each labelled `index + 1`, and those of `displayPlantStatus` are its 4 header
calls, the entries for the same indices in the same order, and the 5 legend calls;
both results are the same for any other array that agrees with the given one at the
indices below 3 and below `numSensors` (no other index is read); for
`numSensors = 5`, `k = 3`. -/
theorem sensor_entries_capped (temp hum : Fl) (soil : Nat → Fl) (numSensors : Int) :
    OLEDDisplay.displaySensorData temp hum soil numSensors =
      [Op.setCursor 0 0, Op.setTextSize 1,
       Op.println "ENVIRONMENT DATA", Op.println "---------------",
       Op.print "Temp: ", Op.printFloat temp 1, Op.println " C",
       Op.print "Hum:  ", Op.printFloat hum 1, Op.println " %",
       Op.println "---------------", Op.println "SOIL MOISTURE:"] ++
      (List.range (min (max numSensors 0) 3).toNat).flatMap (fun i =>
        [Op.print "P", Op.printInt ((i : Int) + 1), Op.print ": ",
         Op.printFloat (soil i) 0, Op.println " %"]) ∧
    OLEDDisplay.displayPlantStatus soil numSensors =
      [Op.setCursor 0 0, Op.setTextSize 1,
       Op.println "PLANT STATUS", Op.println "---------------"] ++
      (List.range (min (max numSensors 0) 3).toNat).flatMap (fun i =>
        [Op.print "Plant ", Op.printInt ((i : Int) + 1), Op.print ": ",
         Op.println (moistureCategory (soil i))]) ++
      [Op.println "---------------", Op.println "STATUS GUIDE:",
       Op.println "DRY  < 30%", Op.println "GOOD 30-60%", Op.println "WET  > 60%"] ∧
    (∀ soil2 : Nat → Fl,
      (∀ i : Nat, i < 3 → (i : Int) < numSensors → soil2 i = soil i) →
      OLEDDisplay.displaySensorData temp hum soil2 numSensors
        = OLEDDisplay.displaySensorData temp hum soil numSensors ∧
      OLEDDisplay.displayPlantStatus soil2 numSensors
        = OLEDDisplay.displayPlantStatus soil numSensors) ∧
    (min (max (5 : Int) 0) 3).toNat = 3 := by
  refine ⟨?_, ?_, ?_, by decide⟩
  · simp only [OLEDDisplay.displaySensorData, forSensors_eq_flatMap, shownSensors]
    rfl
  · simp only [OLEDDisplay.displayPlantStatus, forSensors_eq_flatMap, shownSensors]
    rw [show OLEDDisplay.plantStatusBody soil = (fun i : Nat =>
        [Op.print "Plant ", Op.printInt ((i : Int) + 1), Op.print ": ",
         Op.println (moistureCategory (soil i))]) from funext (plantStatusBody_eq soil)]
  · intro soil2 h
    constructor
    · simp only [OLEDDisplay.displaySensorData]
      rw [forSensors_congr numSensors (OLEDDisplay.sensorDataBody soil)
        (OLEDDisplay.sensorDataBody soil2)
        (fun i h3 hn => by simp [OLEDDisplay.sensorDataBody, h i h3 hn])]
    · simp only [OLEDDisplay.displayPlantStatus]
      rw [forSensors_congr numSensors (OLEDDisplay.plantStatusBody soil)
        (OLEDDisplay.plantStatusBody soil2)
        (fun i h3 hn => by simp [OLEDDisplay.plantStatusBody, h i h3 hn])]

/-- Witness for C5: with `numSensors = 5`, replacing the readings at the indices 3 and
4 (and beyond) changes neither screen. -/
theorem sensor_entries_capped_witness :
    OLEDDisplay.displaySensorData (.finite 23) (.finite 55) sampleSoilCut 5
      = OLEDDisplay.displaySensorData (.finite 23) (.finite 55) sampleSoil 5 ∧
    OLEDDisplay.displayPlantStatus sampleSoilCut 5
      = OLEDDisplay.displayPlantStatus sampleSoil 5 :=
  (sensor_entries_capped (.finite 23) (.finite 55) sampleSoil 5).2.2.1 sampleSoilCut
    (fun i h3 _ => by
      have h : i = 0 ∨ i = 1 ∨ i = 2 := by omega
      rcases h with h | h | h <;> subst h <;> rfl)

/-- C7, counterexample: one sensor reading 45. The loop body ends with the call
`println(" %")`, and with the sample formatter the seventh text line of the sensor
screen is "P1: 45 %", which is not "P1: 45%": a space stands between the value and the
percent sign. -/
theorem sensorData_line_has_space :
    OLEDDisplay.sensorDataBody sampleSoil 0 =
      [Op.print "P", Op.printInt 1, Op.print ": ", Op.printFloat (.finite 45) 0,
       Op.println " %"] ∧
    (printedLines sampleFmt
      (OLEDDisplay.displaySensorData (.finite 23) (.finite 55) sampleSoil 1))[6]?
      = some "P1: 45 %" ∧
    (printedLines sampleFmt
      (OLEDDisplay.displaySensorData (.finite 23) (.finite 55) sampleSoil 1))[6]?
      ≠ some ("P" ++ toString ((0 : Int) + 1) ++ ": " ++ sampleFmt (sampleSoil 0) 0 ++ "%") := by
  refine ⟨by decide, ?_, ?_⟩
  · rw [displaySensorData_lines]; decide
  · rw [displaySensorData_lines]; decide

/-- C7, amended: for every displayed sensor index `i` (below
`min (max numSensors 0) 3`), the text line `displaySensorData` prints for it (line
`6 + i` of the screen, after the six header lines) is exactly
"P" + decimal(i+1) + ": " + (the value printed with 0 decimal places) + " %": a single
space stands between the number and the percent sign. -/
theorem sensorData_line (fmt : Fl → Nat → String) (temp hum : Fl) (soil : Nat → Fl)
    (numSensors : Int) (i : Nat) (hi : i < shownSensors numSensors) :
    (printedLines fmt (OLEDDisplay.displaySensorData temp hum soil numSensors))[6 + i]?
      = some ("P" ++ toString ((i : Int) + 1) ++ ": " ++ fmt (soil i) 0 ++ " %") := by
  rw [displaySensorData_lines, List.getElem?_append_right (by simp)]
  simp [hi, sensorDataLine]

/-- Witness for C7 (amended): third of five readings, value 60. -/
theorem sensorData_line_witness :
    (printedLines sampleFmt
      (OLEDDisplay.displaySensorData (.finite 23) (.finite 55) sampleSoil 5))[6 + 2]?
      = some ("P" ++ toString (((2 : Nat) : Int) + 1) ++ ": " ++
          sampleFmt (sampleSoil 2) 0 ++ " %") :=
  sensorData_line sampleFmt (.finite 23) (.finite 55) sampleSoil 5 2 (by decide)

